import Mathlib

/-!
# Verification of the PK (head-to-head typing challenge) protocol core

Shallow embedding of `app/network/pk_server.py` and `app/network/pk_client.py`.
Python dictionaries (`self.clients`, `self.challenges`, `challenge.results`)
are modelled as association lists with dict semantics: update-in-place for an
existing key, append for a fresh key, removal by key.  Python floats are
modelled as exact rationals (`ℚ`); `float(x)` conversions that default on
failure are modelled with `Option ℚ` where `none` stands for a missing or
non-convertible value.  Each handler is a pure function from the inbound
message (plus, where the source consults the clock or the random generator,
an explicit parameter for that oracle) and the coordinator state to the new
state paired with the list of datagrams sent, in send order.
-/

namespace Dfxy

/-- A network address `(host, port)`, as produced by `recvfrom`. -/
def Addr : Type := String × Nat

instance : DecidableEq Addr := instDecidableEqProd

/-- Structure `ClientInfo` from `pk_server.py` (the unused `last_seen` timestamp field,
which the server writes but never reads, is omitted). -/
structure ClientInfo where
  student_id : String
  name : String
  addr : Addr
deriving DecidableEq

/-- An essay/passage, as loaded by `load_essays` and stored in a challenge
(`{"title": essay.title, "content": essay.content}`). -/
structure Essay where
  title : String
  content : String
deriving DecidableEq

/-- One recorded result: `{"accuracy": float(...), "speed": float(...)}`. -/
structure ResultEntry where
  accuracy : ℚ
  speed : ℚ
deriving DecidableEq

/-- Structure `ChallengeInfo` from `pk_server.py`. -/
structure ChallengeInfo where
  challenger : ClientInfo
  opponent : ClientInfo
  essay : Essay
  results : List (String × ResultEntry)
deriving DecidableEq

/-- The coordinator's mutable state: `self.clients` and `self.challenges`.
(The preloaded `self.essays` list is immutable configuration; the draw
`random.choice(self.essays)` is passed to the response handler as an
explicit oracle argument.) -/
structure ServerState where
  clients : List (String × ClientInfo)
  challenges : List (String × ChallengeInfo)
deriving DecidableEq

/-- The public view of a peer broadcast to other peers:
`{"student_id": ..., "name": ..., "ip": addr[0]}`. -/
structure PublicView where
  student_id : String
  name : String
  ip : String
deriving DecidableEq

/-- Datagram payloads the coordinator sends (one constructor per
`"type"` tag built in `pk_server.py`). -/
inductive OutMsg where
  | userList (users : List PublicView)
  | challengeRequest (src : PublicView)
  | challengeResponse (accepted : Bool) (src : PublicView)
  | startChallenge (challenge_id : String) (essay : Essay)
      (participants : List PublicView)
  | progressUpdate (challenge_id : String) (student_id : String)
      (accuracy : ℚ) (speed : ℚ) (progress : ℚ)
  | challengeResult (challenge_id : String) (winner : Option String)
      (results : List (String × ResultEntry))
deriving DecidableEq

/-! ## Association-list operations with Python-dict semantics -/

/-- Dict read `d.get(k)` / `d[k]`: the binding of the first entry with key `k`. -/
def lookupK {α : Type} (k : String) : List (String × α) → Option α
  | [] => none
  | p :: rest => if p.1 = k then some p.2 else lookupK k rest

/-- Dict write `d[k] = v`: replace the binding in place if `k` is present, otherwise
append `(k, v)` at the end (Python 3.7+ dict insertion order). -/
def upd {α : Type} (k : String) (v : α) : List (String × α) → List (String × α)
  | [] => [(k, v)]
  | p :: rest => if p.1 = k then (k, v) :: rest else p :: upd k v rest

/-- Dict removal as in `d.pop(k, None)`: drop the entry with key `k`. -/
def delK {α : Type} (k : String) (m : List (String × α)) : List (String × α) :=
  m.filter (fun p => p.1 ≠ k)

/-! ## Message shapes (fields each handler reads, `Option` where the source
uses `message.get` and tolerates a missing value) -/

/-- Fields read by `_handle_register`, after `str(...)` coercion
(a missing field yields `""`). -/
structure RegisterMsg where
  student_id : String
  name : String

/-- Fields read by `_handle_challenge_request`. -/
structure ChallengeRequestMsg where
  target_id : Option String
  student_id : Option String

/-- Fields read by `_handle_challenge_response` (`accepted` after `bool(...)`). -/
structure ChallengeResponseMsg where
  accepted : Bool
  challenger_id : Option String
  student_id : Option String

/-- Fields read by `_handle_progress`; the numeric fields are `none` when the
key is missing or `_to_float` fails, so `Option.getD 0` is exactly the
handler's defaulting. -/
structure ProgressMsg where
  challenge_id : Option String
  student_id : Option String
  progress : Option ℚ
  accuracy : Option ℚ
  speed : Option ℚ

/-- Fields read by `_handle_result` (numerics `none` when the key is absent,
in which case `float(0.0)` gives `0`). -/
structure ResultMsg where
  challenge_id : Option String
  student_id : Option String
  accuracy : Option ℚ
  speed : Option ℚ

/-! ## Coordinator handlers -/

/-- The projected public view of a `ClientInfo`. -/
def publicView (c : ClientInfo) : PublicView :=
  ⟨c.student_id, c.name, c.addr.1⟩

/-- The `user_list` payload body built in `_broadcast_user_list`. -/
def user_list_users (s : ServerState) : List PublicView :=
  s.clients.map (fun p => publicView p.2)

/-- Method `_broadcast_user_list`: send the full list to every registered client. -/
def broadcast_user_list (s : ServerState) : List (OutMsg × Addr) :=
  s.clients.map (fun p => (OutMsg.userList (user_list_users s), p.2.addr))

/-- Python `str.strip()` with no argument: drop leading and trailing
whitespace characters (modelled over the ASCII whitespace relevant here). -/
def pyStrip (s : String) : String :=
  ⟨((s.data.dropWhile Char.isWhitespace).reverse.dropWhile
      Char.isWhitespace).reverse⟩

/-- Method `_handle_register`: require non-empty (stripped) id and name, upsert the
client record keyed by id with the observed sender address, broadcast. -/
def handle_register (m : RegisterMsg) (addr : Addr) (s : ServerState) :
    ServerState × List (OutMsg × Addr) :=
  let sid := pyStrip m.student_id
  let nm := pyStrip m.name
  if sid = "" ∨ nm = "" then (s, [])
  else
    let s' : ServerState := { s with clients := upd sid ⟨sid, nm, addr⟩ s.clients }
    (s', broadcast_user_list s')

/-- The `deregister` branch of `_handle_message`: drop the peer if the id is
truthy and present, then broadcast; otherwise do nothing. -/
def handle_deregister (student_id : Option String) (s : ServerState) :
    ServerState × List (OutMsg × Addr) :=
  match student_id with
  | none => (s, [])
  | some sid =>
      if sid ≠ "" ∧ (lookupK sid s.clients).isSome then
        let s' : ServerState := { s with clients := delK sid s.clients }
        (s', broadcast_user_list s')
      else (s, [])

/-- Method `_handle_challenge_request`: if the target is not registered, return
silently; if the requester is unknown, return silently; otherwise relay the
requester's public view to the target. Never touches state. -/
def handle_challenge_request (m : ChallengeRequestMsg) (s : ServerState) :
    ServerState × List (OutMsg × Addr) :=
  match m.target_id with
  | none => (s, [])
  | some tid =>
      match lookupK tid s.clients with
      | none => (s, [])
      | some opponent =>
          match m.student_id.bind (fun c => lookupK c s.clients) with
          | none => (s, [])
          | some challenger =>
              (s, [(OutMsg.challengeRequest (publicView challenger), opponent.addr)])

/-- The challenge identifier
`f"{challenger.student_id}-{responder.student_id}-{int(time.time()*1000)}"`. -/
def challenge_id_of (challenger responder : ClientInfo) (now : Nat) : String :=
  challenger.student_id ++ "-" ++ responder.student_id ++ "-" ++ toString now

/-- Method `_handle_challenge_response`. Here `pickedEssay` is the value of
`random.choice(self.essays)` and `now` the value of `int(time.time()*1000)`,
passed explicitly because they are the handler's only non-determinism. The
relay to the challenger is always sent; on accept a new `ChallengeInfo` is
stored under the generated id and the identical start payload goes to both
participants. -/
def handle_challenge_response (m : ChallengeResponseMsg) (pickedEssay : Essay)
    (now : Nat) (s : ServerState) : ServerState × List (OutMsg × Addr) :=
  match m.challenger_id.bind (fun c => lookupK c s.clients),
        m.student_id.bind (fun r => lookupK r s.clients) with
  | some challenger, some responder =>
      let respOut := (OutMsg.challengeResponse m.accepted (publicView responder),
        challenger.addr)
      if m.accepted then
        let cid := challenge_id_of challenger responder now
        let info : ChallengeInfo :=
          ⟨challenger, responder, ⟨pickedEssay.title, pickedEssay.content⟩, []⟩
        let startPl := OutMsg.startChallenge cid info.essay
          [publicView challenger, publicView responder]
        ({ s with challenges := upd cid info s.challenges },
         [respOut, (startPl, challenger.addr), (startPl, responder.addr)])
      else (s, [respOut])
  | _, _ => (s, [])

/-- Method `_handle_progress`: require truthy `challenge_id` and `student_id`, an
active challenge, and the sender being one of its two sides; clamp the
progress fraction to `[0, 1]` (`max(0.0, min(progress_value, 1.0))`) and relay
accuracy/speed as converted, unclamped; echo the payload to both sides.
State is never modified. -/
def handle_progress (m : ProgressMsg) (s : ServerState) :
    ServerState × List (OutMsg × Addr) :=
  match m.challenge_id, m.student_id with
  | some cid, some sid =>
      if cid = "" ∨ sid = "" then (s, [])
      else
        match lookupK cid s.challenges with
        | none => (s, [])
        | some challenge =>
            if sid = challenge.challenger.student_id ∨
               sid = challenge.opponent.student_id then
              let progress_value := max 0 (min (m.progress.getD 0) 1)
              let pl := OutMsg.progressUpdate cid sid (m.accuracy.getD 0)
                (m.speed.getD 0) progress_value
              (s, [(pl, challenge.challenger.addr), (pl, challenge.opponent.addr)])
            else (s, [])
  | _, _ => (s, [])

/-- Read `challenger_stats.get("accuracy", 0.0)` where the whole stats dict may be
the `{}` default (modelled as `none`). -/
def accOf (stats : Option ResultEntry) : ℚ :=
  (stats.map ResultEntry.accuracy).getD 0

/-- Read `challenger_stats.get("speed", 0.0)` with the same defaulting. -/
def speedOf (stats : Option ResultEntry) : ℚ :=
  (stats.map ResultEntry.speed).getD 0

/-- The epsilon `1e-6` used by `_select_winner`. -/
def eps : ℚ := 1 / 1000000

/-- Method `_select_winner`: accuracy first (difference beyond `eps` decides),
then speed, else a tie (`None`). -/
def select_winner (challenger_stats opponent_stats : Option ResultEntry)
    (challenge : ChallengeInfo) : Option String :=
  let c_acc := accOf challenger_stats
  let o_acc := accOf opponent_stats
  if eps < |c_acc - o_acc| then
    some (if o_acc < c_acc then challenge.challenger.student_id
          else challenge.opponent.student_id)
  else
    let c_speed := speedOf challenger_stats
    let o_speed := speedOf opponent_stats
    if eps < |c_speed - o_speed| then
      some (if o_speed < c_speed then challenge.challenger.student_id
            else challenge.opponent.student_id)
    else none

/-- Method `_evaluate_challenge`: pop the record (no-op when absent), compute the
winner from each side's recorded stats (missing side defaults), and send the
identical `challenge_result` payload to both sides. -/
def evaluate_challenge (challenge_id : String) (s : ServerState) :
    ServerState × List (OutMsg × Addr) :=
  match lookupK challenge_id s.challenges with
  | none => (s, [])
  | some challenge =>
      let s' : ServerState := { s with challenges := delK challenge_id s.challenges }
      let challenger_stats := lookupK challenge.challenger.student_id challenge.results
      let opponent_stats := lookupK challenge.opponent.student_id challenge.results
      let winner_id := select_winner challenger_stats opponent_stats challenge
      let pl := OutMsg.challengeResult challenge_id winner_id challenge.results
      (s', [(pl, challenge.challenger.addr), (pl, challenge.opponent.addr)])

/-- Method `_handle_result`: ignore unless the challenge is active and the submitter
is a registered client (participation is NOT checked); record the result under
the submitter's id (last write wins); once two entries are present, evaluate. -/
def handle_result (m : ResultMsg) (s : ServerState) :
    ServerState × List (OutMsg × Addr) :=
  match m.challenge_id, m.student_id with
  | some cid, some sid =>
      match lookupK cid s.challenges, lookupK sid s.clients with
      | some challenge, some _ =>
          let res' := upd sid ⟨m.accuracy.getD 0, m.speed.getD 0⟩ challenge.results
          let s' : ServerState :=
            { s with challenges := upd cid { challenge with results := res' } s.challenges }
          if res'.length < 2 then (s', [])
          else evaluate_challenge cid s'
      | _, _ => (s, [])
  | _, _ => (s, [])

/-! ## Peer agent (`pk_client.py`) -/

/-- The agent's local identity (`self.student_id`, `self.name`, both `None`
at construction). -/
structure PkClientState where
  student_id : Option String
  name : Option String
deriving DecidableEq

/-- Payloads the agent sends to the coordinator. -/
inductive ClientOut where
  | registerMsg (student_id name : String)
  | deregisterMsg (student_id : String)
  | challengeRequestMsg (student_id target_id : String)
  | challengeResponseMsg (student_id challenger_id : String) (accepted : Bool)
  | resultMsg (challenge_id student_id : String) (accuracy speed : ℚ)
  | progressMsg (challenge_id student_id : String) (accuracy speed progress : ℚ)
deriving DecidableEq

namespace PkClient

/-- Method `PkClient.register`: store the identity locally, then send. -/
def register (st : PkClientState) (student_id nm : String) :
    PkClientState × List ClientOut :=
  let st' : PkClientState := { st with student_id := some student_id, name := some nm }
  (st', [ClientOut.registerMsg student_id nm])

/-- Method `PkClient.deregister`: `if not self.student_id: return` (falsy means
`None` or the empty string), otherwise send the deregistration payload.
The stored identity is NOT modified. -/
def deregister (st : PkClientState) : PkClientState × List ClientOut :=
  match st.student_id with
  | none => (st, [])
  | some sid =>
      if sid = "" then (st, [])
      else (st, [ClientOut.deregisterMsg sid])

end PkClient

/-! ## Concrete fixtures used by witnesses and counterexamples -/

/-- A registered peer `A`. -/
def clientA : ClientInfo := ⟨"A", "Alice", ("10.0.0.1", 5001)⟩

/-- A registered peer `B`. -/
def clientB : ClientInfo := ⟨"B", "Bob", ("10.0.0.2", 5002)⟩

/-- A registered peer `X`, never a participant of the fixture challenge. -/
def clientX : ClientInfo := ⟨"X", "Xavier", ("10.0.0.3", 5003)⟩

/-- A fixture passage. -/
def essay0 : Essay := ⟨"t0", "body0"⟩

/-- A second, distinct fixture passage. -/
def essay1 : Essay := ⟨"t1", "body1"⟩

/-- A fixture challenge between `A` (challenger) and `B` (opponent). -/
def chAB : ChallengeInfo := ⟨clientA, clientB, essay0, []⟩

/-- The fixture challenge with one result already recorded, from side `A`. -/
def chC2 : ChallengeInfo := ⟨clientA, clientB, essay0, [("A", ⟨1, 40⟩)]⟩

/-- Coordinator state with `A`, `B`, `X` registered and the half-reported
challenge `"c1"` active. -/
def s0C2 : ServerState :=
  ⟨[("A", clientA), ("B", clientB), ("X", clientX)], [("c1", chC2)]⟩

/-- Coordinator state with `A` and `B` registered and no active challenge. -/
def sReg : ServerState := ⟨[("A", clientA), ("B", clientB)], []⟩

/-- Coordinator state with `A` and `B` registered and the fresh challenge
`"c1"` active. -/
def sProg : ServerState := ⟨[("A", clientA), ("B", clientB)], [("c1", chAB)]⟩

/-- Coordinator state in which a challenge with id `"A-B-5"` (the very id the
coordinator generates for an `A` vs `B` acceptance at millisecond 5) is
already active. -/
def s0C4 : ServerState := ⟨[("A", clientA), ("B", clientB)], [("A-B-5", chAB)]⟩

/-! ## Association-list lemmas -/

theorem lookupK_upd_self {α : Type} (k : String) (v : α) (m : List (String × α)) :
    lookupK k (upd k v m) = some v := by
  induction m with
  | nil => simp [upd, lookupK]
  | cons p rest ih =>
      by_cases h : p.1 = k
      · simp [upd, h, lookupK]
      · simp [upd, h, lookupK, ih]

theorem lookupK_upd_ne {α : Type} {k k' : String} (v : α) (m : List (String × α))
    (h : k' ≠ k) : lookupK k' (upd k v m) = lookupK k' m := by
  induction m with
  | nil => simp [upd, lookupK, Ne.symm h]
  | cons p rest ih =>
      by_cases hp : p.1 = k
      · simp [upd, hp, lookupK, Ne.symm h]
      · simp [upd, hp, lookupK, ih]

theorem lookupK_delK_self {α : Type} (k : String) (m : List (String × α)) :
    lookupK k (delK k m) = none := by
  induction m with
  | nil => simp [delK, lookupK]
  | cons p rest ih =>
      by_cases hp : p.1 = k
      · simpa [delK, hp, lookupK] using ih
      · simpa [delK, hp, lookupK] using ih

theorem length_upd_of_lookup_none {α : Type} {k : String} (v : α)
    {m : List (String × α)} (h : lookupK k m = none) :
    (upd k v m).length = m.length + 1 := by
  induction m with
  | nil => simp [upd]
  | cons p rest ih =>
      by_cases hp : p.1 = k
      · simp [lookupK, hp] at h
      · simp [lookupK, hp] at h
        simp [upd, hp, ih h]

theorem length_upd_of_lookup_some {α : Type} {k : String} (v : α)
    {m : List (String × α)} {w : α} (h : lookupK k m = some w) :
    (upd k v m).length = m.length := by
  induction m with
  | nil => simp [lookupK] at h
  | cons p rest ih =>
      by_cases hp : p.1 = k
      · simp [upd, hp]
      · simp [lookupK, hp] at h
        simp [upd, hp, ih h]

theorem keys_upd_of_lookup_some {α : Type} {k : String} (v : α)
    {m : List (String × α)} {w : α} (h : lookupK k m = some w) :
    (upd k v m).map Prod.fst = m.map Prod.fst := by
  induction m with
  | nil => simp [lookupK] at h
  | cons p rest ih =>
      by_cases hp : p.1 = k
      · simp [upd, hp]
      · simp [lookupK, hp] at h
        simp [upd, hp, ih h]

theorem mem_upd {α : Type} {k : String} {v : α} {m : List (String × α)}
    {p : String × α} (h : p ∈ upd k v m) : p = (k, v) ∨ p ∈ m := by
  induction m with
  | nil => simpa [upd] using h
  | cons q rest ih =>
      by_cases hq : q.1 = k
      · simp [upd, hq] at h
        rcases h with h | h
        · exact Or.inl h
        · exact Or.inr (List.mem_cons_of_mem q h)
      · simp [upd, hq] at h
        rcases h with h | h
        · exact Or.inr (by simp [h])
        · rcases ih h with h' | h'
          · exact Or.inl h'
          · exact Or.inr (List.mem_cons_of_mem q h')

theorem select_winner_congr (cS oS : Option ResultEntry) (ch : ChallengeInfo)
    (r : List (String × ResultEntry)) :
    select_winner cS oS { ch with results := r } = select_winner cS oS ch := rfl

theorem select_winner_none_right (cS : Option ResultEntry) (ch : ChallengeInfo) :
    select_winner cS none ch = select_winner cS (some ⟨0, 0⟩) ch := rfl

/-! ## Claim theorems -/

/-- C1. For a challenge with both sides' results recorded, the winner is
decided accuracy-first: if the accuracies differ by more than `1e-6` the
higher-accuracy side wins — for all speed values, which shows speed is
irrelevant in that case; otherwise if the speeds differ by more than `1e-6`
the higher-speed side wins; otherwise the outcome is a tie (`none`). -/
theorem select_winner_decision (ch : ChallengeInfo) (a b s1 s2 : ℚ) :
    (eps < |a - b| →
      select_winner (some ⟨a, s1⟩) (some ⟨b, s2⟩) ch =
        some (if b < a then ch.challenger.student_id else ch.opponent.student_id))
  ∧ (|a - b| ≤ eps → eps < |s1 - s2| →
      select_winner (some ⟨a, s1⟩) (some ⟨b, s2⟩) ch =
        some (if s2 < s1 then ch.challenger.student_id else ch.opponent.student_id))
  ∧ (|a - b| ≤ eps → |s1 - s2| ≤ eps →
      select_winner (some ⟨a, s1⟩) (some ⟨b, s2⟩) ch = none) := by
  refine ⟨?_, ?_, ?_⟩
  · intro h
    simp [select_winner, accOf, speedOf, h]
  · intro h1 h2
    simp [select_winner, accOf, speedOf, not_lt.mpr h1, h2]
  · intro h1 h2
    simp [select_winner, accOf, speedOf, not_lt.mpr h1, not_lt.mpr h2]

/-- Witness for C1 on the spec's own test vectors: accuracies `(0.95, 0.90)`
make the challenger win despite the lower speed; equal accuracies with speeds
`(40, 55)` make the opponent win; equal accuracies and speeds tie. -/
theorem select_winner_decision_witness :
    select_winner (some ⟨95/100, 40⟩) (some ⟨90/100, 55⟩) chAB = some "A"
  ∧ select_winner (some ⟨90/100, 40⟩) (some ⟨90/100, 55⟩) chAB = some "B"
  ∧ select_winner (some ⟨90/100, 45⟩) (some ⟨90/100, 45⟩) chAB = none := by
  refine ⟨?_, ?_, ?_⟩
  · have h := (select_winner_decision chAB (95/100) (90/100) 40 55).1
      (by rw [lt_abs]; norm_num [eps])
    rw [if_pos (by norm_num : (90/100 : ℚ) < 95/100)] at h
    exact h
  · have h := (select_winner_decision chAB (90/100) (90/100) 40 55).2.1
      (by rw [abs_le]; norm_num [eps]) (by rw [lt_abs]; norm_num [eps])
    rw [if_neg (by norm_num : ¬ (55 : ℚ) < 40)] at h
    exact h
  · exact (select_winner_decision chAB (90/100) (90/100) 45 45).2.2
      (by rw [abs_le]; norm_num [eps]) (by rw [abs_le]; norm_num [eps])

/-- C2. Once the second result entry for an active challenge is recorded,
the result handler evaluates the challenge: its record disappears from the
active table and the identical `challenge_result` payload is broadcast to
both sides. A subsequent `result` message carrying a challenge id that is no
longer (or never was) active is ignored: the state and output are unchanged. -/
theorem handle_result_second_and_late (s : ServerState) (cid sid : String)
    (acc spd : Option ℚ) (ch : ChallengeInfo) (p1 : String) (e1 : ResultEntry) :
    (lookupK cid s.challenges = some ch → ch.results = [(p1, e1)] → sid ≠ p1 →
      (lookupK sid s.clients).isSome →
      (lookupK cid (handle_result ⟨some cid, some sid, acc, spd⟩ s).1.challenges = none
       ∧ ∃ w res, (handle_result ⟨some cid, some sid, acc, spd⟩ s).2 =
           [(OutMsg.challengeResult cid w res, ch.challenger.addr),
            (OutMsg.challengeResult cid w res, ch.opponent.addr)]))
  ∧ (lookupK cid s.challenges = none →
      handle_result ⟨some cid, some sid, acc, spd⟩ s = (s, [])) := by
  constructor
  · intro hch hres hne hreg
    obtain ⟨c, hc⟩ := Option.isSome_iff_exists.mp hreg
    have hupd : upd sid (⟨acc.getD 0, spd.getD 0⟩ : ResultEntry) ch.results
        = [(p1, e1), (sid, ⟨acc.getD 0, spd.getD 0⟩)] := by
      rw [hres]
      simp [upd, Ne.symm hne]
    have hkey : handle_result ⟨some cid, some sid, acc, spd⟩ s =
        evaluate_challenge cid
          ⟨s.clients,
           upd cid ({ ch with results := [(p1, e1), (sid, ⟨acc.getD 0, spd.getD 0⟩)] })
             s.challenges⟩ := by
      simp [handle_result, hch, hc, hupd]
    rw [hkey]
    have hlook := lookupK_upd_self cid
      ({ ch with results := [(p1, e1), (sid, ⟨acc.getD 0, spd.getD 0⟩)] })
      s.challenges
    constructor
    · simp [evaluate_challenge, hlook, lookupK_delK_self]
    · simp only [evaluate_challenge, hlook]
      exact ⟨_, _, rfl⟩
  · intro hnone
    cases hcl : lookupK sid s.clients <;> simp [handle_result, hnone, hcl]

/-- Witness for C2: on the fixture state, `B`'s result completes the pair, the
challenge record is removed and both sides are notified; a result for the
not-active id `"c9"` is ignored outright. -/
theorem handle_result_second_and_late_witness :
    (lookupK "c1" (handle_result ⟨some "c1", some "B", some (9/10 : ℚ),
          some 40⟩ s0C2).1.challenges = none
     ∧ ∃ w res, (handle_result ⟨some "c1", some "B", some (9/10 : ℚ),
           some 40⟩ s0C2).2 =
         [(OutMsg.challengeResult "c1" w res, chC2.challenger.addr),
          (OutMsg.challengeResult "c1" w res, chC2.opponent.addr)])
  ∧ handle_result ⟨some "c9", some "B", some (1 : ℚ), some 1⟩ s0C2 = (s0C2, []) :=
  ⟨(handle_result_second_and_late s0C2 "c1" "B" (some (9/10)) (some 40) chC2
      "A" ⟨1, 40⟩).1 rfl rfl (by decide) rfl,
   (handle_result_second_and_late s0C2 "c9" "B" (some 1) (some 1) chC2
      "A" ⟨1, 40⟩).2 rfl⟩

/-- Counterexample to C3: on the fixture state, a progress report from side
`A` with accuracy `-1` and speed `-2` is relayed with those very values —
the relayed accuracy is negative, so accuracy and speed are NOT clamped to
non-negative bounds (only the progress fraction is clamped, here 1.7 → 1). -/
theorem progress_relays_negative_accuracy :
    (handle_progress ⟨some "c1", some "A", some (17/10), some (-1),
        some (-2)⟩ sProg).2 =
      [(OutMsg.progressUpdate "c1" "A" (-1) (-2) 1, clientA.addr),
       (OutMsg.progressUpdate "c1" "A" (-1) (-2) 1, clientB.addr)]
  ∧ ((-1 : ℚ) < 0) := by
  constructor
  · simp [handle_progress, sProg, chAB, clientA, clientB, lookupK]
    norm_num [min_def, max_def]
  · norm_num

/-- C3, amended. For every ProgressReport relayed for an active
challenge, the relayed progress value is clamped to `[0, 1]`, while the
relayed accuracy and speed are the decoded values passed through unchanged
(no clamping is applied to them). -/
theorem handle_progress_relay (s : ServerState) (cid sid : String)
    (p a sp : Option ℚ) (ch : ChallengeInfo)
    (hcid : cid ≠ "") (hsid : sid ≠ "")
    (hch : lookupK cid s.challenges = some ch)
    (hmem : sid = ch.challenger.student_id ∨ sid = ch.opponent.student_id) :
    handle_progress ⟨some cid, some sid, p, a, sp⟩ s =
      (s, [(OutMsg.progressUpdate cid sid (a.getD 0) (sp.getD 0)
              (max 0 (min (p.getD 0) 1)), ch.challenger.addr),
           (OutMsg.progressUpdate cid sid (a.getD 0) (sp.getD 0)
              (max 0 (min (p.getD 0) 1)), ch.opponent.addr)])
  ∧ 0 ≤ max 0 (min (p.getD 0) 1) ∧ max 0 (min (p.getD 0) 1) ≤ 1 := by
  refine ⟨?_, le_max_left _ _, max_le (by norm_num) (min_le_right _ _)⟩
  simp [handle_progress, hcid, hsid, hch, hmem]

/-- Witness for C3 (amended): progress 1.7 is relayed as 1.0 and progress
-0.3 as 0.0, while accuracy `-1` / `1/2` and speed `-2` / `5` pass through
exactly as reported. -/
theorem handle_progress_relay_witness :
    handle_progress ⟨some "c1", some "A", some (17/10), some (-1),
        some (-2)⟩ sProg =
      (sProg, [(OutMsg.progressUpdate "c1" "A" (-1) (-2) 1, clientA.addr),
               (OutMsg.progressUpdate "c1" "A" (-1) (-2) 1, clientB.addr)])
  ∧ handle_progress ⟨some "c1", some "B", some (-3/10), some (1/2),
        some 5⟩ sProg =
      (sProg, [(OutMsg.progressUpdate "c1" "B" (1/2) 5 0, clientA.addr),
               (OutMsg.progressUpdate "c1" "B" (1/2) 5 0, clientB.addr)]) := by
  constructor
  · have h := (handle_progress_relay sProg "c1" "A" (some (17/10)) (some (-1))
      (some (-2)) chAB (by decide) (by decide) rfl (Or.inl rfl)).1
    rw [h]
    norm_num [chAB, clientA, clientB, min_def, max_def]
  · have h := (handle_progress_relay sProg "c1" "B" (some (-3/10)) (some (1/2))
      (some 5) chAB (by decide) (by decide) rfl (Or.inr rfl)).1
    rw [h]
    norm_num [chAB, clientA, clientB, min_def, max_def]

/-- Counterexample to C5: after `register("A", "Alice")`, `deregister()` does
send the deregistration payload, but the locally stored identity is NOT
cleared — both `student_id` and `name` still hold their registered values. -/
theorem deregister_retains_identity :
    ((PkClient.deregister
        (PkClient.register ⟨none, none⟩ "A" "Alice").1).1.student_id = some "A")
  ∧ ((PkClient.deregister
        (PkClient.register ⟨none, none⟩ "A" "Alice").1).1.name = some "Alice")
  ∧ ((PkClient.deregister
        (PkClient.register ⟨none, none⟩ "A" "Alice").1).2
      = [ClientOut.deregisterMsg "A"]) :=
  ⟨rfl, rfl, rfl⟩

/-- C5, amended. `deregister()` is a no-op (nothing sent, state kept)
when no non-empty identity is stored; when a non-empty `student_id` is stored
it sends the deregistration request — but it retains the locally stored
identity rather than clearing it. -/
theorem deregister_spec (st : PkClientState) :
    (st.student_id = none → PkClient.deregister st = (st, []))
  ∧ (st.student_id = some "" → PkClient.deregister st = (st, []))
  ∧ (∀ sid, st.student_id = some sid → sid ≠ "" →
      PkClient.deregister st = (st, [ClientOut.deregisterMsg sid])) := by
  refine ⟨?_, ?_, ?_⟩
  · intro h
    simp [PkClient.deregister, h]
  · intro h
    simp [PkClient.deregister, h]
  · intro sid h hne
    simp [PkClient.deregister, h, hne]

/-- Witness for C5 (amended): the never-registered agent sends nothing; the
agent registered as `"A"` sends the deregistration payload and keeps its
identity. -/
theorem deregister_spec_witness :
    PkClient.deregister ⟨none, none⟩ = (⟨none, none⟩, [])
  ∧ PkClient.deregister ⟨some "A", some "Alice"⟩ =
      (⟨some "A", some "Alice"⟩, [ClientOut.deregisterMsg "A"]) :=
  ⟨(deregister_spec ⟨none, none⟩).1 rfl,
   (deregister_spec ⟨some "A", some "Alice"⟩).2.2 "A" rfl (by decide)⟩

/-- C6. A challenge_request whose target id is absent or not currently
registered produces no datagram at all and leaves the registry and the
challenge table unchanged. -/
theorem handle_challenge_request_unknown_target (s : ServerState)
    (m : ChallengeRequestMsg)
    (h : ∀ t, m.target_id = some t → lookupK t s.clients = none) :
    handle_challenge_request m s = (s, []) := by
  rcases hm : m.target_id with _ | t
  · simp [handle_challenge_request, hm]
  · simp [handle_challenge_request, hm, h t hm]

/-- Witness for C6: with only `A` and `B` registered, a request from `A`
targeting the unknown peer `"Z"` is dropped with no output. -/
theorem handle_challenge_request_unknown_target_witness :
    handle_challenge_request ⟨some "Z", some "A"⟩ sReg = (sReg, []) :=
  handle_challenge_request_unknown_target sReg ⟨some "Z", some "A"⟩
    (fun t ht => by
      obtain rfl : "Z" = t := Option.some.inj ht
      rfl)

/-- C10. Handling any inbound progress message — relayed or ignored —
returns the coordinator state unchanged: the registry, the challenge table
and every results mapping are exactly as before; the handler only emits
datagrams. -/
theorem handle_progress_preserves_state (m : ProgressMsg) (s : ServerState) :
    (handle_progress m s).1 = s := by
  rcases m with ⟨co, so, p, a, sp⟩
  rcases co with _ | cid
  · rfl
  · rcases so with _ | sid
    · rfl
    · by_cases h : cid = "" ∨ sid = ""
      · simp [handle_progress, h]
      · rcases hch : lookupK cid s.challenges with _ | ch
        · simp [handle_progress, h, hch]
        · by_cases hm : sid = ch.challenger.student_id ∨
              sid = ch.opponent.student_id
          · simp [handle_progress, h, hch, hm]
          · simp [handle_progress, h, hch, hm]

/-- Counterexample to C4: with a challenge already active under the id
`"A-B-5"`, an accepted response between the same pair at millisecond 5
generates that very id — it is NOT distinct from the active ids — and
storing the new record silently replaces the existing active record. -/
theorem challenge_id_collision :
    ((lookupK (challenge_id_of clientA clientB 5) s0C4.challenges).isSome = true)
  ∧ ((handle_challenge_response ⟨true, some "A", some "B"⟩ essay1 5
        s0C4).1.challenges = [("A-B-5", ⟨clientA, clientB, essay1, []⟩)])
  ∧ ((⟨clientA, clientB, essay1, []⟩ : ChallengeInfo) ≠ chAB) := by
  have h5 : challenge_id_of clientA clientB 5 = "A-B-5" := by decide
  refine ⟨rfl, ?_, by decide⟩
  simp [handle_challenge_response, s0C4, h5, upd, lookupK]

/-- C4, amended. The generated challenge_id is
`challengerId-responderId-milliseconds`, with no check against the active
table: the new record is stored under that id, every other active binding
is untouched, and the table grows by one exactly when the generated id is
not already active — when an active challenge carries the same id (same
ordered pair within the same millisecond) the new record replaces it and
the table size is unchanged. -/
theorem challenge_id_alloc (s : ServerState) (e : Essay) (now : Nat)
    (a b : String) (challenger responder : ClientInfo)
    (ha : lookupK a s.clients = some challenger)
    (hb : lookupK b s.clients = some responder) :
    (lookupK (challenge_id_of challenger responder now)
        (handle_challenge_response ⟨true, some a, some b⟩ e now s).1.challenges
      = some ⟨challenger, responder, ⟨e.title, e.content⟩, []⟩)
  ∧ (∀ k, k ≠ challenge_id_of challenger responder now →
      lookupK k (handle_challenge_response ⟨true, some a, some b⟩ e now
          s).1.challenges
        = lookupK k s.challenges)
  ∧ (lookupK (challenge_id_of challenger responder now) s.challenges = none →
      (handle_challenge_response ⟨true, some a, some b⟩ e now
          s).1.challenges.length
        = s.challenges.length + 1)
  ∧ (∀ old, lookupK (challenge_id_of challenger responder now) s.challenges
        = some old →
      (handle_challenge_response ⟨true, some a, some b⟩ e now
          s).1.challenges.length
        = s.challenges.length) := by
  have hkey : (handle_challenge_response ⟨true, some a, some b⟩ e now
      s).1.challenges
      = upd (challenge_id_of challenger responder now)
          (⟨challenger, responder, ⟨e.title, e.content⟩, []⟩ : ChallengeInfo)
          s.challenges := by
    simp [handle_challenge_response, ha, hb]
  refine ⟨?_, ?_, ?_, ?_⟩
  · rw [hkey]
    exact lookupK_upd_self _ _ _
  · intro k hk
    rw [hkey]
    exact lookupK_upd_ne _ _ hk
  · intro h
    rw [hkey]
    exact length_upd_of_lookup_none _ h
  · intro old h
    rw [hkey]
    exact length_upd_of_lookup_some _ h

/-- Witness for C4 (amended): the acceptance at millisecond 7 stores the new
record under `"A-B-7"` and grows the table, while the one at millisecond 5
collides with the active `"A-B-5"` and leaves the table size unchanged
(overwrite). -/
theorem challenge_id_alloc_witness :
    (lookupK (challenge_id_of clientA clientB 7)
        (handle_challenge_response ⟨true, some "A", some "B"⟩ essay1 7
          s0C4).1.challenges
      = some ⟨clientA, clientB, ⟨essay1.title, essay1.content⟩, []⟩)
  ∧ ((handle_challenge_response ⟨true, some "A", some "B"⟩ essay1 7
        s0C4).1.challenges.length = s0C4.challenges.length + 1)
  ∧ ((handle_challenge_response ⟨true, some "A", some "B"⟩ essay1 5
        s0C4).1.challenges.length = s0C4.challenges.length) :=
  ⟨(challenge_id_alloc s0C4 essay1 7 "A" "B" clientA clientB rfl rfl).1,
   (challenge_id_alloc s0C4 essay1 7 "A" "B" clientA clientB rfl rfl).2.2.1 rfl,
   (challenge_id_alloc s0C4 essay1 5 "A" "B" clientA clientB rfl rfl).2.2.2
     chAB rfl⟩

/-- C7. Re-registering an existing peer_id updates that peer's stored
record in place (new name and observed address), keeps the table keys
unchanged (no duplicate entry), and the broadcast peer list carries exactly
one entry per registered peer_id. -/
theorem handle_register_existing (s : ServerState) (addr : Addr)
    (sid nm : String) (old : ClientInfo)
    (h1 : pyStrip sid ≠ "") (h2 : pyStrip nm ≠ "")
    (h3 : lookupK (pyStrip sid) s.clients = some old)
    (hid : ∀ p ∈ s.clients, (p : String × ClientInfo).2.student_id = p.1)
    (hnd : (s.clients.map Prod.fst).Nodup) :
    (lookupK (pyStrip sid) (handle_register ⟨sid, nm⟩ addr s).1.clients
        = some ⟨pyStrip sid, pyStrip nm, addr⟩)
  ∧ ((handle_register ⟨sid, nm⟩ addr s).1.clients.map Prod.fst
        = s.clients.map Prod.fst)
  ∧ ((user_list_users (handle_register ⟨sid, nm⟩ addr s).1).map
        PublicView.student_id = s.clients.map Prod.fst)
  ∧ ((user_list_users (handle_register ⟨sid, nm⟩ addr s).1).map
        PublicView.student_id).Nodup := by
  have hs : (handle_register ⟨sid, nm⟩ addr s).1
      = ⟨upd (pyStrip sid) ⟨pyStrip sid, pyStrip nm, addr⟩ s.clients, s.challenges⟩ := by
    simp [handle_register, h1, h2]
  have hkeys : (upd (pyStrip sid) (⟨pyStrip sid, pyStrip nm, addr⟩ : ClientInfo)
      s.clients).map Prod.fst = s.clients.map Prod.fst :=
    keys_upd_of_lookup_some _ h3
  have husers : (user_list_users
        ⟨upd (pyStrip sid) ⟨pyStrip sid, pyStrip nm, addr⟩ s.clients, s.challenges⟩).map
          PublicView.student_id
      = (upd (pyStrip sid) (⟨pyStrip sid, pyStrip nm, addr⟩ : ClientInfo)
          s.clients).map Prod.fst := by
    simp only [user_list_users, List.map_map]
    refine List.map_congr_left ?_
    intro q hq
    rcases mem_upd hq with h | h
    · subst h
      rfl
    · simp [publicView, Function.comp, hid q h]
  refine ⟨?_, ?_, ?_, ?_⟩
  · rw [hs]
    exact lookupK_upd_self _ _ _
  · rw [hs]
    exact hkeys
  · rw [hs]
    rw [husers]
    exact hkeys
  · rw [hs, husers, hkeys]
    exact hnd

/-- Witness for C7: re-registering `"A"` with a new name and address on the
two-peer fixture updates the entry in place, and the broadcast list ids stay
exactly `["A", "B"]`, duplicate-free. -/
theorem handle_register_existing_witness :
    (lookupK "A" (handle_register ⟨"A", "Alicia"⟩ ("10.0.0.9", 6001)
        sReg).1.clients = some ⟨"A", "Alicia", ("10.0.0.9", 6001)⟩)
  ∧ ((handle_register ⟨"A", "Alicia"⟩ ("10.0.0.9", 6001) sReg).1.clients.map
        Prod.fst = ["A", "B"])
  ∧ ((user_list_users (handle_register ⟨"A", "Alicia"⟩ ("10.0.0.9", 6001)
        sReg).1).map PublicView.student_id = ["A", "B"])
  ∧ ((user_list_users (handle_register ⟨"A", "Alicia"⟩ ("10.0.0.9", 6001)
        sReg).1).map PublicView.student_id).Nodup := by
  have h := handle_register_existing sReg ("10.0.0.9", 6001) "A" "Alicia"
    clientA (by decide) (by decide) rfl (by decide) (by decide)
  exact ⟨h.1, h.2.1, h.2.2.1, h.2.2.2⟩

/-- C8. An accepted challenge response between two registered peers makes
the coordinator relay the acceptance to the challenger, store exactly one new
`ChallengeInfo` under the generated challenge id, and send one identical
start payload — carrying the challenge id, the chosen passage's title and
content, and both participants' public views — to both participants. -/
theorem handle_challenge_response_accepted (s : ServerState) (e : Essay)
    (now : Nat) (a b : String) (challenger responder : ClientInfo)
    (ha : lookupK a s.clients = some challenger)
    (hb : lookupK b s.clients = some responder) :
    handle_challenge_response ⟨true, some a, some b⟩ e now s =
      (⟨s.clients,
        upd (challenge_id_of challenger responder now)
          ⟨challenger, responder, ⟨e.title, e.content⟩, []⟩ s.challenges⟩,
       [(OutMsg.challengeResponse true (publicView responder), challenger.addr),
        (OutMsg.startChallenge (challenge_id_of challenger responder now)
           ⟨e.title, e.content⟩ [publicView challenger, publicView responder],
         challenger.addr),
        (OutMsg.startChallenge (challenge_id_of challenger responder now)
           ⟨e.title, e.content⟩ [publicView challenger, publicView responder],
         responder.addr)]) := by
  simp [handle_challenge_response, ha, hb]

/-- Witness for C8: accepting `A`'s challenge on the two-peer fixture at
millisecond 9. -/
theorem handle_challenge_response_accepted_witness :
    handle_challenge_response ⟨true, some "A", some "B"⟩ essay0 9 sReg =
      (⟨sReg.clients,
        upd (challenge_id_of clientA clientB 9)
          ⟨clientA, clientB, ⟨essay0.title, essay0.content⟩, []⟩
          sReg.challenges⟩,
       [(OutMsg.challengeResponse true (publicView clientB), clientA.addr),
        (OutMsg.startChallenge (challenge_id_of clientA clientB 9)
           ⟨essay0.title, essay0.content⟩ [publicView clientA, publicView clientB],
         clientA.addr),
        (OutMsg.startChallenge (challenge_id_of clientA clientB 9)
           ⟨essay0.title, essay0.content⟩ [publicView clientA, publicView clientB],
         clientB.addr)]) :=
  handle_challenge_response_accepted sReg essay0 9 "A" "B" clientA clientB
    rfl rfl

/-- C9. The result handler checks only that the challenge is active and
the submitter registered — not that the submitter is a participant. A result
from a registered non-participant `x` is recorded under `x`'s own id, reaches
the two-entry threshold, and evaluation fires with the opponent's entry
missing: the broadcast winner is computed with the missing side's accuracy
and speed taken as `0`. -/
theorem handle_result_nonparticipant (s : ServerState) (cid x : String)
    (acc spd : Option ℚ) (ch : ChallengeInfo) (eA : ResultEntry)
    (hch : lookupK cid s.challenges = some ch)
    (hres : ch.results = [(ch.challenger.student_id, eA)])
    (hreg : (lookupK x s.clients).isSome)
    (hx1 : x ≠ ch.challenger.student_id)
    (hx2 : x ≠ ch.opponent.student_id)
    (hco : ch.opponent.student_id ≠ ch.challenger.student_id) :
    ((handle_result ⟨some cid, some x, acc, spd⟩ s).2 =
      [(OutMsg.challengeResult cid (select_winner (some eA) (some ⟨0, 0⟩) ch)
          [(ch.challenger.student_id, eA), (x, ⟨acc.getD 0, spd.getD 0⟩)],
        ch.challenger.addr),
       (OutMsg.challengeResult cid (select_winner (some eA) (some ⟨0, 0⟩) ch)
          [(ch.challenger.student_id, eA), (x, ⟨acc.getD 0, spd.getD 0⟩)],
        ch.opponent.addr)])
  ∧ lookupK cid (handle_result ⟨some cid, some x, acc, spd⟩
      s).1.challenges = none := by
  obtain ⟨c, hc⟩ := Option.isSome_iff_exists.mp hreg
  have hupd : upd x (⟨acc.getD 0, spd.getD 0⟩ : ResultEntry) ch.results
      = [(ch.challenger.student_id, eA), (x, ⟨acc.getD 0, spd.getD 0⟩)] := by
    rw [hres]
    simp [upd, Ne.symm hx1]
  have hkey : handle_result ⟨some cid, some x, acc, spd⟩ s =
      evaluate_challenge cid
        ⟨s.clients,
         upd cid ({ ch with results := [(ch.challenger.student_id, eA), (x, ⟨acc.getD 0, spd.getD 0⟩)] })
           s.challenges⟩ := by
    simp [handle_result, hch, hc, hupd]
  rw [hkey]
  have hlook := lookupK_upd_self cid
    ({ ch with results := [(ch.challenger.student_id, eA), (x, ⟨acc.getD 0, spd.getD 0⟩)] })
    s.challenges
  constructor
  · simp only [evaluate_challenge, hlook]
    simp [lookupK, Ne.symm hco, hx2, select_winner_congr,
      select_winner_none_right]
  · simp [evaluate_challenge, hlook, lookupK_delK_self]

/-- Witness for C9: the registered outsider `X` submits a result for the
half-reported challenge `"c1"`; evaluation fires, the missing side `B` is
scored as zeros, so side `A` (accuracy 1 against 0) is declared winner, and
the record is gone. -/
theorem handle_result_nonparticipant_witness :
    ((handle_result ⟨some "c1", some "X", some (1/2 : ℚ), some 10⟩ s0C2).2 =
      [(OutMsg.challengeResult "c1" (some "A")
          [("A", ⟨1, 40⟩), ("X", ⟨1/2, 10⟩)], clientA.addr),
       (OutMsg.challengeResult "c1" (some "A")
          [("A", ⟨1, 40⟩), ("X", ⟨1/2, 10⟩)], clientB.addr)])
  ∧ lookupK "c1" (handle_result ⟨some "c1", some "X", some (1/2 : ℚ),
      some 10⟩ s0C2).1.challenges = none := by
  have h := handle_result_nonparticipant s0C2 "c1" "X" (some (1/2)) (some 10)
    chC2 ⟨1, 40⟩ rfl rfl rfl (by decide) (by decide) (by decide)
  refine ⟨?_, h.2⟩
  rw [h.1]
  norm_num [select_winner, accOf, speedOf, eps, chC2, chAB, clientA, clientB,
    abs]

end Dfxy
